import Mathlib

/-!
Shallow embedding of the measurement utilities of the wronai/edge
repository (src/src/wronai_edge/benchmark.py, src/src/wronai_edge/
converters/__init__.py, and the model validator known only through its
tests and the specification).

The external ONNX runtime, the process clock and the process memory
counter are modelled as an explicit environment record: the embedded
functions are deterministic functions of that environment, exactly
mirroring the arithmetic and control flow of the Python source.
Python float arithmetic is modelled over the rationals; a Python
exception is an explicit error value of an Except type.
-/

deriving instance DecidableEq for Except

/-- Shape entry of an ONNX model input, as returned by the runtime:
a Python int, a symbolic (string) dimension, or None. -/
inductive Dim where
  | int (n : Int)
  | sym (s : String)
  | dyn
deriving DecidableEq, Repr

/-- Declared model input: name and shape, mirroring the objects returned
by session.get_inputs() in benchmark.py. -/
structure InputDetail where
  name : String
  shape : List Dim
deriving DecidableEq, Repr

/-- Environment of one benchmark_model call: what the external runtime,
clock and memory counter return at each observation point of the source.
loadOk models whether the ort.InferenceSession construction succeeds;
startTime and endTime are the two time.perf_counter() readings around
the timed loop; startMem and endMem the two process-memory readings. -/
structure BenchEnv where
  loadOk : Bool
  inputDetails : List InputDetail
  startTime : ℚ
  endTime : ℚ
  startMem : ℚ
  endMem : ℚ
deriving DecidableEq, Repr

/-- Exceptions that benchmark_model can raise: failure of the session
construction (any runtime error while loading the model), or a Python
ZeroDivisionError from one of the two divisions in the statistics. -/
inductive BenchError where
  | loadFailure
  | zeroDivision
deriving DecidableEq, Repr

/-- Dictionary returned by benchmark_model in benchmark.py. -/
structure BenchmarkResult where
  avg_latency : ℚ
  throughput : ℚ
  memory_mb : ℚ
  total_time : ℚ
  runs : Nat
deriving DecidableEq, Repr

/-- Embeds the input-shape derivation of benchmark.py lines 45-48:
when input_shapes is None, each declared shape is rebuilt with
`dim if isinstance(dim, int) and dim > 0 else 1` applied entrywise;
otherwise the caller-supplied shapes are used as given. -/
def resolveShapes (inputDetails : List InputDetail)
    (input_shapes : Option (List (List Int))) : List (List Int) :=
  match input_shapes with
  | some shapes => shapes
  | none =>
      inputDetails.map (fun inp =>
        inp.shape.map (fun d =>
          match d with
          | Dim.int n => if 0 < n then n else 1
          | Dim.sym _ => 1
          | Dim.dyn => 1))

/-- Embeds the input_data dictionary comprehension of benchmark.py lines
50-54: the declared inputs are zipped with the resolved shapes, keying a
random tensor of that shape by the input name.  Only the name and shape
of each generated tensor are observable in the embedding. -/
def benchmarkInputData (inputDetails : List InputDetail)
    (input_shapes : Option (List (List Int))) : List (String × List Int) :=
  (inputDetails.zip (resolveShapes inputDetails input_shapes)).map
    (fun p => (p.1.name, p.2))

/-- Embeds benchmark_model of benchmark.py.  The session construction
may raise (loadFailure); the warmup loop and the timed loop only consume
the environment readings; total_time = end_time - start_time;
avg_latency = (total_time / runs) * 1000 raises ZeroDivisionError when
runs = 0; throughput = runs / total_time raises ZeroDivisionError when
total_time = 0; memory_usage = max(0, end_mem - start_mem). -/
def benchmark_model (env : BenchEnv)
    (input_shapes : Option (List (List Int)))
    (warmup runs : Nat) : Except BenchError BenchmarkResult :=
  if env.loadOk = false then
    Except.error BenchError.loadFailure
  else
    let _input_data := benchmarkInputData env.inputDetails input_shapes
    let _warmupRuns := warmup
    let total_time : ℚ := env.endTime - env.startTime
    if runs = 0 then
      Except.error BenchError.zeroDivision
    else if total_time = 0 then
      Except.error BenchError.zeroDivision
    else
      Except.ok
        { avg_latency := (total_time / (runs : ℚ)) * 1000
          throughput := (runs : ℚ) / total_time
          memory_mb := max 0 (env.endMem - env.startMem)
          total_time := total_time
          runs := runs }

/-- C1: for every successful benchmark_model call with runs > 0, the two
derived statistics are exactly the documented expressions over
total_time and runs, hence mutually consistent: avg_latency * runs =
total_time * 1000 and throughput * total_time = runs. -/
theorem benchmark_model_stats_consistent
    (env : BenchEnv) (input_shapes : Option (List (List Int)))
    (warmup runs : Nat) (r : BenchmarkResult)
    (h : benchmark_model env input_shapes warmup runs = Except.ok r)
    (hruns : 0 < runs) :
    r.avg_latency = (r.total_time / (r.runs : ℚ)) * 1000 ∧
    r.throughput = (r.runs : ℚ) / r.total_time ∧
    r.avg_latency * (r.runs : ℚ) = r.total_time * 1000 ∧
    r.throughput * r.total_time = (r.runs : ℚ) := by
  unfold benchmark_model at h
  by_cases hload : env.loadOk = false
  · simp [hload] at h
  · simp only [hload, if_false] at h
    by_cases h0 : runs = 0
    · simp [h0] at h
    · by_cases ht : env.endTime - env.startTime = 0
      · simp [h0, ht] at h
      · simp only [h0, ht, if_false] at h
        cases h
        have hq : (runs : ℚ) ≠ 0 := (Nat.cast_pos.mpr hruns).ne'
        refine ⟨rfl, rfl, ?_, ?_⟩
        · field_simp
        · field_simp

/-- Witness for C1 at a concrete environment: no declared inputs, clock
readings 0 and 1, one benchmark run. -/
theorem benchmark_model_stats_consistent_witness :
    let env : BenchEnv :=
      { loadOk := true, inputDetails := []
        startTime := 0, endTime := 1, startMem := 0, endMem := 0 }
    let r : BenchmarkResult :=
      { avg_latency := 1000, throughput := 1, memory_mb := 0
        total_time := 1, runs := 1 }
    benchmark_model env none 1 1 = Except.ok r ∧
    (r.avg_latency = (r.total_time / (r.runs : ℚ)) * 1000 ∧
     r.throughput = (r.runs : ℚ) / r.total_time ∧
     r.avg_latency * (r.runs : ℚ) = r.total_time * 1000 ∧
     r.throughput * r.total_time = (r.runs : ℚ)) := by
  intro env r
  exact ⟨by simp [benchmark_model],
    benchmark_model_stats_consistent env none 1 1 r
      (by simp [benchmark_model]) (by decide)⟩

/-- Inversion of a successful benchmark_model call: the session loaded,
runs is nonzero, the elapsed time is nonzero, and the result is exactly
the record built from the environment readings. -/
theorem benchmark_model_ok_inv (env : BenchEnv)
    (input_shapes : Option (List (List Int))) (warmup runs : Nat)
    (r : BenchmarkResult)
    (h : benchmark_model env input_shapes warmup runs = Except.ok r) :
    env.loadOk = true ∧ runs ≠ 0 ∧ env.endTime - env.startTime ≠ 0 ∧
    r = { avg_latency := ((env.endTime - env.startTime) / (runs : ℚ)) * 1000
          throughput := (runs : ℚ) / (env.endTime - env.startTime)
          memory_mb := max 0 (env.endMem - env.startMem)
          total_time := env.endTime - env.startTime
          runs := runs } := by
  unfold benchmark_model at h
  by_cases hl : env.loadOk = false
  · simp [hl] at h
  · simp only [hl, if_false] at h
    by_cases h0 : runs = 0
    · simp [h0] at h
    · by_cases ht : env.endTime - env.startTime = 0
      · simp [h0, ht] at h
      · simp only [h0, ht, if_false] at h
        cases h
        exact ⟨by simpa using hl, h0, ht, rfl⟩

/-- Concrete environment with zero memory delta, used by witnesses. -/
def sampleEnv : BenchEnv :=
  { loadOk := true, inputDetails := []
    startTime := 0, endTime := 1, startMem := 0, endMem := 0 }

/-- Concrete environment whose second memory reading is lower than the
first, used by witnesses. -/
def sampleEnvNegMem : BenchEnv :=
  { loadOk := true, inputDetails := []
    startTime := 0, endTime := 1, startMem := 1, endMem := 0 }

/-- Concrete benchmark result produced on sampleEnv and sampleEnvNegMem
with one run, used by witnesses. -/
def sampleResult : BenchmarkResult :=
  { avg_latency := 1000, throughput := 1, memory_mb := 0
    total_time := 1, runs := 1 }

/-- C2: the runs field of a successful benchmark_model result equals the
runs argument, whatever the warmup argument: two successful calls with
warmup values W1 and W2 and the same runs R both report R. -/
theorem benchmark_model_runs_count (env : BenchEnv)
    (input_shapes : Option (List (List Int))) (w1 w2 R : Nat)
    (r1 r2 : BenchmarkResult)
    (h1 : benchmark_model env input_shapes w1 R = Except.ok r1)
    (h2 : benchmark_model env input_shapes w2 R = Except.ok r2) :
    r1.runs = R ∧ r2.runs = R := by
  obtain ⟨-, -, -, rfl⟩ := benchmark_model_ok_inv _ _ _ _ _ h1
  obtain ⟨-, -, -, rfl⟩ := benchmark_model_ok_inv _ _ _ _ _ h2
  exact ⟨rfl, rfl⟩

/-- Witness for C2: warmup 1 and warmup 7 with runs = 1 both succeed on
the sample environment and both report runs = 1. -/
theorem benchmark_model_runs_count_witness :
    benchmark_model sampleEnv none 1 1 = Except.ok sampleResult ∧
    benchmark_model sampleEnv none 7 1 = Except.ok sampleResult ∧
    sampleResult.runs = 1 := by
  refine ⟨?_, ?_, ?_⟩
  · simp [benchmark_model, sampleEnv, sampleResult]
  · simp [benchmark_model, sampleEnv, sampleResult]
  · exact (benchmark_model_runs_count sampleEnv none 1 7 1
      sampleResult sampleResult
      (by simp [benchmark_model, sampleEnv, sampleResult])
      (by simp [benchmark_model, sampleEnv, sampleResult])).1

/-- C3: the memory_mb field of a successful benchmark_model result is
never negative, and a negative measured delta is clamped to zero. -/
theorem benchmark_model_memory_nonneg (env : BenchEnv)
    (input_shapes : Option (List (List Int))) (warmup runs : Nat)
    (r : BenchmarkResult)
    (h : benchmark_model env input_shapes warmup runs = Except.ok r) :
    0 ≤ r.memory_mb ∧ (env.endMem < env.startMem → r.memory_mb = 0) := by
  obtain ⟨-, -, -, rfl⟩ := benchmark_model_ok_inv _ _ _ _ _ h
  refine ⟨le_max_left 0 _, fun hlt => ?_⟩
  exact max_eq_left (sub_nonpos.mpr hlt.le)

/-- Witness for C3 on an environment whose memory reading drops by one
megabyte during the timed loop: the reported delta is zero. -/
theorem benchmark_model_memory_nonneg_witness :
    benchmark_model sampleEnvNegMem none 1 1 = Except.ok sampleResult ∧
    0 ≤ sampleResult.memory_mb ∧ sampleResult.memory_mb = 0 := by
  have h : benchmark_model sampleEnvNegMem none 1 1 =
      Except.ok sampleResult := by
    simp [benchmark_model, sampleEnvNegMem, sampleResult]
  have h2 := benchmark_model_memory_nonneg sampleEnvNegMem none 1 1
    sampleResult h
  exact ⟨h, h2.1, h2.2 (by decide)⟩

/-- C10: benchmark_model never guards its divisions: with runs = 0 every
call that reaches the statistics computation raises ZeroDivisionError
at total_time / runs instead of returning a result, and with runs > 0
but zero elapsed time it raises ZeroDivisionError at runs / total_time;
runs > 0 is an unstated precondition of a successful call. -/
theorem benchmark_model_zero_runs_raises (env : BenchEnv)
    (input_shapes : Option (List (List Int))) (warmup : Nat)
    (hload : env.loadOk = true) :
    benchmark_model env input_shapes warmup 0 =
      Except.error BenchError.zeroDivision ∧
    (∀ runs : Nat, 0 < runs → env.endTime = env.startTime →
      benchmark_model env input_shapes warmup runs =
        Except.error BenchError.zeroDivision) ∧
    ∀ r : BenchmarkResult,
      benchmark_model env input_shapes warmup 0 ≠ Except.ok r := by
  refine ⟨?_, ?_, ?_⟩
  · simp [benchmark_model, hload]
  · intro runs hr ht
    simp [benchmark_model, hload, ht, sub_self, hr.ne']
  · intro r hok
    obtain ⟨-, h0, -, -⟩ := benchmark_model_ok_inv _ _ _ _ _ hok
    exact h0 rfl

/-- Witness for C10: on the sample environment with runs = 0 the call
returns the ZeroDivisionError value. -/
theorem benchmark_model_zero_runs_raises_witness :
    sampleEnv.loadOk = true ∧
    benchmark_model sampleEnv none 1 0 =
      Except.error BenchError.zeroDivision := by
  exact ⟨rfl, (benchmark_model_zero_runs_raises sampleEnv none 1 rfl).1⟩

/-- Embeds pathlib Path.stem applied to a file name (the final path
component): the name without its last suffix, where the suffix starts at
the last dot lying strictly after the first character and strictly
before the end of the name. -/
def pathStem (name : String) : String :=
  let cs := name.toList
  let dots := (List.range cs.length).filter (fun i => cs.get? i = some '.')
  match dots.getLast? with
  | some i => if 0 < i ∧ i < cs.length - 1 then String.mk (cs.take i) else name
  | none => name

/-- A model path as consumed by compare_models: directory components,
file name, and the benchmark environment the external runtime presents
for the artifact stored at that path. -/
structure ModelPath where
  dirs : List String
  fileName : String
  env : BenchEnv
deriving DecidableEq, Repr

/-- Embeds Python dict item assignment on an insertion-ordered
association list: an existing key keeps its position and gets the new
value, a new key is appended at the end. -/
def insertAssoc {β : Type} (m : List (String × β)) (k : String) (v : β) :
    List (String × β) :=
  if m.any (fun p => p.1 == k) then
    m.map (fun p => if p.1 == k then (k, v) else p)
  else m ++ [(k, v)]

/-- Embeds compare_models of benchmark.py lines 110-128: iterate over
the paths, benchmark each one, store a success in the results dictionary
under the file stem of the path, and continue past a failing model
without recording anything for it. -/
def compare_models (input_shapes : Option (List (List Int)))
    (warmup runs : Nat) (model_paths : List ModelPath) :
    List (String × BenchmarkResult) :=
  model_paths.foldl
    (fun results model_path =>
      match benchmark_model model_path.env input_shapes warmup runs with
      | Except.ok r => insertAssoc results (pathStem model_path.fileName) r
      | Except.error _ => results)
    []

/-- Inserting under a key that is not present appends the binding. -/
theorem insertAssoc_of_not_mem {β : Type} (m : List (String × β))
    (k : String) (v : β) (h : k ∉ m.map Prod.fst) :
    insertAssoc m k v = m ++ [(k, v)] := by
  have hany : m.any (fun p => p.1 == k) = false := by
    rw [List.any_eq_false]
    intro p hp hk
    exact h (List.mem_map.mpr ⟨p, hp, eq_of_beq hk⟩)
  simp [insertAssoc, hany]

/-- With pairwise-distinct file stems, the compare_models loop appends
exactly one binding per successfully benchmarked path, in order. -/
theorem compare_models_foldl_char (input_shapes : Option (List (List Int)))
    (warmup runs : Nat) :
    ∀ (paths : List ModelPath) (acc : List (String × BenchmarkResult)),
    (∀ p ∈ paths, pathStem p.fileName ∉ acc.map Prod.fst) →
    (paths.map (fun p => pathStem p.fileName)).Nodup →
    List.foldl
      (fun results model_path =>
        match benchmark_model model_path.env input_shapes warmup runs with
        | Except.ok r => insertAssoc results (pathStem model_path.fileName) r
        | Except.error _ => results)
      acc paths =
    acc ++ paths.filterMap (fun p =>
      match benchmark_model p.env input_shapes warmup runs with
      | Except.ok r => some (pathStem p.fileName, r)
      | Except.error _ => none) := by
  intro paths
  induction paths with
  | nil =>
      intro acc _ _
      rw [List.foldl_nil, List.filterMap_nil, List.append_nil]
  | cons p ps ih =>
      intro acc hacc hnd
      rw [List.map_cons, List.nodup_cons] at hnd
      obtain ⟨hstem, hndps⟩ := hnd
      rw [List.foldl_cons]
      rcases hben : benchmark_model p.env input_shapes warmup runs with e | r
      · rw [List.filterMap_cons]
        simp only [hben]
        exact ih acc (fun q hq => hacc q (List.mem_cons_of_mem p hq)) hndps
      · rw [List.filterMap_cons]
        simp only [hben]
        have hnotin : pathStem p.fileName ∉ acc.map Prod.fst :=
          hacc p (List.mem_cons_self p ps)
        rw [insertAssoc_of_not_mem acc _ r hnotin]
        have step := ih (acc ++ [(pathStem p.fileName, r)])
          (fun q hq => by
            simp only [List.map_append, List.mem_append]
            rintro (hin | hin)
            · exact hacc q (List.mem_cons_of_mem p hq) hin
            · simp only [List.map_cons, List.map_nil, List.mem_singleton] at hin
              exact hstem (List.mem_map.mpr ⟨q, hq, hin⟩))
          hndps
        rw [step, List.append_assoc]
        rfl

/-- Environment like sampleEnv but whose memory reading rises by one
megabyte, so its benchmark result differs from sampleResult. -/
def sampleEnvMemRise : BenchEnv :=
  { loadOk := true, inputDetails := []
    startTime := 0, endTime := 1, startMem := 0, endMem := 1 }

/-- Benchmark result produced on sampleEnvMemRise with one run. -/
def sampleResultMemRise : BenchmarkResult :=
  { avg_latency := 1000, throughput := 1, memory_mb := 1
    total_time := 1, runs := 1 }

/-- Environment whose session construction fails. -/
def failEnv : BenchEnv :=
  { loadOk := false, inputDetails := []
    startTime := 0, endTime := 1, startMem := 0, endMem := 0 }

/-- Path a/m.onnx holding the sample artifact. -/
def dupPathA : ModelPath :=
  { dirs := ["a"], fileName := "m.onnx", env := sampleEnv }

/-- Path b/m.onnx holding a byte-identical copy of the same artifact. -/
def dupPathB : ModelPath :=
  { dirs := ["b"], fileName := "m.onnx", env := sampleEnv }

/-- Path c/m.onnx holding a different artifact with the same file name. -/
def dupPathC : ModelPath :=
  { dirs := ["c"], fileName := "m.onnx", env := sampleEnvMemRise }

/-- Path a/n.onnx holding a byte-identical copy under another name. -/
def dupPathD : ModelPath :=
  { dirs := ["a"], fileName := "n.onnx", env := sampleEnv }

/-- Path alpha.onnx that benchmarks successfully. -/
def okPathA : ModelPath :=
  { dirs := [], fileName := "alpha.onnx", env := sampleEnv }

/-- Path bad.onnx whose benchmark raises at session construction. -/
def failPath : ModelPath :=
  { dirs := [], fileName := "bad.onnx", env := failEnv }

/-- Counterexample to C4 as stated: byte-identical artifacts at the two
distinct paths a/m.onnx and b/m.onnx share the file stem m, so the
comparison returns a single entry instead of one entry per artifact. -/
theorem compare_models_shared_stem_counterexample :
    dupPathA ≠ dupPathB ∧
    dupPathA.env = dupPathB.env ∧
    benchmark_model dupPathA.env none 1 1 = Except.ok sampleResult ∧
    benchmark_model dupPathB.env none 1 1 = Except.ok sampleResult ∧
    compare_models none 1 1 [dupPathA, dupPathB] = [("m", sampleResult)] ∧
    (compare_models none 1 1 [dupPathA, dupPathB]).length ≠ 2 := by
  have hb : benchmark_model sampleEnv none 1 1 = Except.ok sampleResult := by
    simp [benchmark_model, sampleEnv, sampleResult]
  have hstem : pathStem "m.onnx" = "m" := by decide
  have hcmp : compare_models none 1 1 [dupPathA, dupPathB] =
      [("m", sampleResult)] := by
    unfold compare_models
    rw [List.foldl_cons, List.foldl_cons, List.foldl_nil]
    simp only [dupPathA, dupPathB, hb, hstem]
    simp [insertAssoc]
  refine ⟨by decide, rfl, hb, hb, hcmp, ?_⟩
  rw [hcmp]
  decide

/-- C4 amended: byte-identical artifacts at two distinct paths whose
file stems are distinct yield one result entry per artifact, keyed by
the two distinct stems. -/
theorem compare_models_pair_entries (input_shapes : Option (List (List Int)))
    (warmup runs : Nat) (p1 p2 : ModelPath) (r1 r2 : BenchmarkResult)
    (henv : p1.env = p2.env)
    (hstem : pathStem p1.fileName ≠ pathStem p2.fileName)
    (h1 : benchmark_model p1.env input_shapes warmup runs = Except.ok r1)
    (h2 : benchmark_model p2.env input_shapes warmup runs = Except.ok r2) :
    compare_models input_shapes warmup runs [p1, p2] =
      [(pathStem p1.fileName, r1), (pathStem p2.fileName, r2)] := by
  have _hid := henv
  unfold compare_models
  rw [List.foldl_cons, List.foldl_cons, List.foldl_nil]
  simp only [h1, h2]
  rw [insertAssoc_of_not_mem [] (pathStem p1.fileName) r1 (by simp)]
  rw [insertAssoc_of_not_mem ([] ++ [(pathStem p1.fileName, r1)])
    (pathStem p2.fileName) r2 (by
      simp only [List.nil_append, List.map_cons, List.map_nil,
        List.mem_singleton]
      exact fun hh => hstem hh.symm)]
  rfl

/-- Witness for the amended C4: the byte-identical artifacts at a/m.onnx
and a/n.onnx give the two entries keyed m and n. -/
theorem compare_models_pair_entries_witness :
    compare_models none 1 1 [dupPathA, dupPathD] =
      [("m", sampleResult), ("n", sampleResult)] := by
  have h := compare_models_pair_entries none 1 1 dupPathA dupPathD
    sampleResult sampleResult rfl (by decide)
    (by simp [benchmark_model, dupPathA, sampleEnv, sampleResult])
    (by simp [benchmark_model, dupPathD, sampleEnv, sampleResult])
  simpa [dupPathA, dupPathD] using h

/-- Counterexample to C5 as stated: a/m.onnx and c/m.onnx both benchmark
successfully, but they share the file stem m, so the first result is
overwritten and absent from the returned mapping. -/
theorem compare_models_overwrite_counterexample :
    benchmark_model dupPathA.env none 1 1 = Except.ok sampleResult ∧
    benchmark_model dupPathC.env none 1 1 =
      Except.ok sampleResultMemRise ∧
    compare_models none 1 1 [dupPathA, dupPathC] =
      [("m", sampleResultMemRise)] ∧
    (pathStem dupPathA.fileName, sampleResult) ∉
      compare_models none 1 1 [dupPathA, dupPathC] := by
  have hb1 : benchmark_model sampleEnv none 1 1 = Except.ok sampleResult := by
    simp [benchmark_model, sampleEnv, sampleResult]
  have hb2 : benchmark_model sampleEnvMemRise none 1 1 =
      Except.ok sampleResultMemRise := by
    simp [benchmark_model, sampleEnvMemRise, sampleResultMemRise]
  have hstem : pathStem "m.onnx" = "m" := by decide
  have hcmp : compare_models none 1 1 [dupPathA, dupPathC] =
      [("m", sampleResultMemRise)] := by
    unfold compare_models
    rw [List.foldl_cons, List.foldl_cons, List.foldl_nil]
    simp only [dupPathA, dupPathC, hb1, hb2, hstem]
    simp [insertAssoc]
  refine ⟨hb1, hb2, hcmp, ?_⟩
  rw [hcmp]
  simp [dupPathA, hstem, sampleResult, sampleResultMemRise]

/-- C5 amended: provided the file stems of the listed paths are pairwise
distinct, a path whose benchmark raises contributes no key to the
returned mapping while iteration continues, and every path whose
benchmark succeeds has its own result present under its stem; one
failing model never aborts the batch. -/
theorem compare_models_error_isolation (input_shapes : Option (List (List Int)))
    (warmup runs : Nat) (paths : List ModelPath)
    (hnd : (paths.map (fun p => pathStem p.fileName)).Nodup)
    (p : ModelPath) (hp : p ∈ paths) :
    (∀ e : BenchError,
      benchmark_model p.env input_shapes warmup runs = Except.error e →
      pathStem p.fileName ∉
        (compare_models input_shapes warmup runs paths).map Prod.fst) ∧
    (∀ r : BenchmarkResult,
      benchmark_model p.env input_shapes warmup runs = Except.ok r →
      (pathStem p.fileName, r) ∈
        compare_models input_shapes warmup runs paths) := by
  have hchar : compare_models input_shapes warmup runs paths =
      paths.filterMap (fun q =>
        match benchmark_model q.env input_shapes warmup runs with
        | Except.ok r => some (pathStem q.fileName, r)
        | Except.error _ => none) := by
    have h := compare_models_foldl_char input_shapes warmup runs paths []
      (by intro q _; simp) hnd
    simpa [compare_models] using h
  rw [hchar]
  constructor
  · intro e he hmem
    rw [List.mem_map] at hmem
    obtain ⟨pair, hpair, hfst⟩ := hmem
    rw [List.mem_filterMap] at hpair
    obtain ⟨q, hq, hfq⟩ := hpair
    rcases hbq : benchmark_model q.env input_shapes warmup runs with e2 | r2
    · rw [hbq] at hfq
      cases hfq
    · rw [hbq] at hfq
      cases hfq
      have hqp : q = p :=
        List.inj_on_of_nodup_map hnd hq hp (by simpa using hfst)
      rw [hqp] at hbq
      rw [hbq] at he
      cases he
  · intro r hr
    exact List.mem_filterMap.mpr ⟨p, hp, by rw [hr]⟩

/-- Witness for the amended C5: on the batch bad.onnx then alpha.onnx,
the failing model leaves no key while the succeeding one is present. -/
theorem compare_models_error_isolation_witness :
    pathStem failPath.fileName ∉
      (compare_models none 1 1 [failPath, okPathA]).map Prod.fst ∧
    (pathStem okPathA.fileName, sampleResult) ∈
      compare_models none 1 1 [failPath, okPathA] := by
  constructor
  · exact (compare_models_error_isolation none 1 1 [failPath, okPathA]
      (by decide) failPath (by decide)).1 BenchError.loadFailure rfl
  · exact (compare_models_error_isolation none 1 1 [failPath, okPathA]
      (by decide) okPathA (by decide)).2 sampleResult
      (by simp [benchmark_model, okPathA, sampleEnv, sampleResult])

/-- Relation between one declared dimension and the size used for the
generated tensor: a concrete positive integer dimension is kept
unchanged, and any other declared dimension (non-positive integer,
symbolic, or unset) is materialized as size 1. -/
def dimResolved (d : Dim) (s : Int) : Prop :=
  (∃ n : Int, d = Dim.int n ∧ 0 < n ∧ s = n) ∨
  ((∀ n : Int, d = Dim.int n → n ≤ 0) ∧ s = 1)

/-- C7: when input_shapes is omitted, the generated input tensors are
keyed by the declared input names, and each tensor shape keeps every
concrete positive declared dimension and materializes every dynamic
dimension as size 1. -/
theorem benchmarkInputData_default_shapes (inputDetails : List InputDetail) :
    List.Forall₂ (fun (inp : InputDetail) (entry : String × List Int) =>
        entry.1 = inp.name ∧ List.Forall₂ dimResolved inp.shape entry.2)
      inputDetails (benchmarkInputData inputDetails none) := by
  induction inputDetails with
  | nil => simp [benchmarkInputData, resolveShapes]
  | cons inp rest ih =>
      have hstep : benchmarkInputData (inp :: rest) none =
          (inp.name, inp.shape.map fun d =>
            match d with
            | Dim.int n => if 0 < n then n else 1
            | Dim.sym _ => 1
            | Dim.dyn => 1) :: benchmarkInputData rest none := by
        simp [benchmarkInputData, resolveShapes]
      rw [hstep]
      refine List.Forall₂.cons ⟨rfl, ?_⟩ ih
      induction inp.shape with
      | nil => exact List.Forall₂.nil
      | cons d ds ihd =>
          rw [List.map_cons]
          refine List.Forall₂.cons ?_ ihd
          cases d with
          | int n =>
              by_cases hn : 0 < n
              · exact Or.inl ⟨n, rfl, hn, by simp [hn]⟩
              · refine Or.inr ⟨?_, by simp [hn]⟩
                intro m hm
                cases hm
                exact le_of_not_lt hn
          | sym s => exact Or.inr ⟨(fun m hm => nomatch hm), rfl⟩
          | dyn => exact Or.inr ⟨(fun m hm => nomatch hm), rfl⟩

/-- Arguments captured at the torch.onnx.export call site of the
PyTorch conversion strategy in converters/__init__.py. -/
structure ExportCall where
  dummyInputShape : List Nat
  input_names : List String
  output_names : List String
  dynamic_axes : List (String × List (Nat × String))
  opset : Nat
  output_path : String
deriving DecidableEq, Repr

/-- Exceptions the conversion strategy can raise before reaching the
export routine: torch missing (ImportError), an empty caller-supplied
name list making the default dynamic_axes dictionary raise IndexError,
or torch.load failing on the model file. -/
inductive ConvertError where
  | importError
  | indexError
  | loadError
deriving DecidableEq, Repr

/-- Environment of one _convert_pytorch call: whether torch imports and
whether torch.load succeeds on the model file. -/
structure TorchEnv where
  torchAvailable : Bool
  loadOk : Bool
deriving DecidableEq, Repr

/-- Embeds _convert_pytorch of converters/__init__.py lines 41-90: after
the torch import check, input_names defaults to a singleton input and
output_names to a singleton output, a missing dynamic_axes defaults to a
dictionary marking axis 0 of the first input name and first output name
as the batch dimension, torch.load loads the model, and the export
routine is invoked with the dummy input torch.randn(1, 3, 224, 224);
the embedding returns the argument record of that export call. -/
def convert_pytorch (tenv : TorchEnv) (model_path output_path : String)
    (opset : Nat) (input_names output_names : Option (List String))
    (dynamic_axes : Option (List (String × List (Nat × String)))) :
    Except ConvertError ExportCall :=
  if tenv.torchAvailable = false then
    Except.error ConvertError.importError
  else
    let _loaded_from := model_path
    let inNames := input_names.getD ["input"]
    let outNames := output_names.getD ["output"]
    match dynamic_axes with
    | some dyn =>
        if tenv.loadOk = false then
          Except.error ConvertError.loadError
        else
          Except.ok
            { dummyInputShape := [1, 3, 224, 224]
              input_names := inNames, output_names := outNames
              dynamic_axes := dyn, opset := opset
              output_path := output_path }
    | none =>
        match inNames.head?, outNames.head? with
        | some i0, some o0 =>
            let dyn := insertAssoc
              (insertAssoc [] i0 [(0, "batch_size")]) o0 [(0, "batch_size")]
            if tenv.loadOk = false then
              Except.error ConvertError.loadError
            else
              Except.ok
                { dummyInputShape := [1, 3, 224, 224]
                  input_names := inNames, output_names := outNames
                  dynamic_axes := dyn, opset := opset
                  output_path := output_path }
        | _, _ => Except.error ConvertError.indexError

/-- C6: whenever the PyTorch conversion strategy reaches the export
routine, the dummy input tensor it passes has shape (1, 3, 224, 224),
whatever the caller supplied for any argument of the function. -/
theorem convert_pytorch_fixed_dummy_shape (tenv : TorchEnv)
    (model_path output_path : String) (opset : Nat)
    (input_names output_names : Option (List String))
    (dynamic_axes : Option (List (String × List (Nat × String))))
    (call : ExportCall)
    (h : convert_pytorch tenv model_path output_path opset
      input_names output_names dynamic_axes = Except.ok call) :
    call.dummyInputShape = [1, 3, 224, 224] := by
  unfold convert_pytorch at h
  by_cases himp : tenv.torchAvailable = false
  · simp [himp] at h
  · simp only [himp, if_false] at h
    cases dynamic_axes with
    | some dyn =>
        by_cases hl : tenv.loadOk = false
        · simp [hl] at h
        · simp only [hl, if_false] at h
          cases h
          rfl
    | none =>
        rcases hin : (input_names.getD ["input"]).head? with _ | i0
        · simp only [hin] at h
          cases h
        · rcases hout : (output_names.getD ["output"]).head? with _ | o0
          · simp only [hin, hout] at h
            cases h
          · simp only [hin, hout] at h
            by_cases hl : tenv.loadOk = false
            · simp [hl] at h
            · simp only [hl, if_false] at h
              cases h
              rfl

/-- Witness for C6: with torch available, load succeeding, and all
optional arguments omitted, the export call uses the fixed dummy input
shape. -/
theorem convert_pytorch_fixed_dummy_shape_witness :
    convert_pytorch { torchAvailable := true, loadOk := true }
      "model.pt" "model.onnx" 13 none none none =
    Except.ok
      { dummyInputShape := [1, 3, 224, 224]
        input_names := ["input"], output_names := ["output"]
        dynamic_axes := [("input", [(0, "batch_size")]),
                         ("output", [(0, "batch_size")])]
        opset := 13, output_path := "model.onnx" } ∧
    ExportCall.dummyInputShape
      { dummyInputShape := [1, 3, 224, 224]
        input_names := ["input"], output_names := ["output"]
        dynamic_axes := [("input", [(0, "batch_size")]),
                         ("output", [(0, "batch_size")])]
        opset := 13, output_path := "model.onnx" } = [1, 3, 224, 224] := by
  constructor
  · decide
  · exact convert_pytorch_fixed_dummy_shape
      { torchAvailable := true, loadOk := true }
      "model.pt" "model.onnx" 13 none none none _ (by decide)

/-- Outcome record of one validation check, from the ValidationReport
data model of the spec: a passed flag and a message. -/
structure CheckResult where
  passed : Bool
  message : String
deriving DecidableEq, Repr

/-- Load-step failures of the validation harness, from the spec's error
taxonomy: the path does not exist (not-found), or the artifact exists
but cannot be parsed or initialized (model-corrupt). -/
inductive ValError where
  | fileNotFound
  | modelCorrupt
deriving DecidableEq, Repr

/-- Environment of one validate_model call: whether the path exists,
whether the inference session initializes, the declared input and
output tensors, and the outcome of the one synthetic inference call
(whether it returns without error and how many outputs it produces). -/
structure ValEnv where
  pathExists : Bool
  loadOk : Bool
  inputs : List InputDetail
  outputs : List InputDetail
  runOk : Bool
  runOutputCount : Nat
deriving DecidableEq, Repr

/-- Modelled from the spec: the module wronai_edge.models.validator is
absent from the sources (only its tests and callers are present), so
validate_model is embedded from spec sections 4.2, 7 and 8.  Loading is
step one and its failure is fatal, distinguishing a missing path
(not-found) from an unparseable artifact (model-corrupt); when load
succeeds the report records the four fixed checks: model_loaded always
passes, model_inputs passes when at least one input is declared and
every input has a non-empty name, model_outputs symmetrically for
outputs, and inference_test passes when the synthetic inference call
returns without error and produces the declared number of outputs. -/
def validate_model (env : ValEnv) :
    Except ValError (List (String × CheckResult)) :=
  if env.pathExists = false then
    Except.error ValError.fileNotFound
  else if env.loadOk = false then
    Except.error ValError.modelCorrupt
  else
    Except.ok
      [("model_loaded", { passed := true, message := "model loaded" }),
       ("model_inputs",
        { passed := decide (0 < env.inputs.length) &&
            env.inputs.all (fun i => !(i.name == ""))
          message := "declared inputs" }),
       ("model_outputs",
        { passed := decide (0 < env.outputs.length) &&
            env.outputs.all (fun o => !(o.name == ""))
          message := "declared outputs" }),
       ("inference_test",
        { passed := env.runOk && (env.runOutputCount == env.outputs.length)
          message := "synthetic inference" })]

/-- Passed flag of the named check of a report, when present. -/
def checkPassed (report : List (String × CheckResult)) (key : String) :
    Option Bool :=
  (report.find? (fun p => p.1 == key)).map (fun p => p.2.passed)

/-- Validation environment whose loaded model declares one input with an
empty name. -/
def envEmptyName : ValEnv :=
  { pathExists := true, loadOk := true
    inputs := [{ name := "", shape := [Dim.int 1] }]
    outputs := [{ name := "out", shape := [Dim.int 1] }]
    runOk := true, runOutputCount := 1 }

/-- Counterexample to C8 as stated: a successfully loaded model with
exactly one declared input whose name is empty has N = 1 > 0, yet the
model_inputs check fails, because the harness also requires every input
name to be non-empty. -/
theorem validate_model_inputs_iff_counterexample :
    0 < envEmptyName.inputs.length ∧
    validate_model envEmptyName =
      Except.ok
        [("model_loaded", { passed := true, message := "model loaded" }),
         ("model_inputs", { passed := false, message := "declared inputs" }),
         ("model_outputs", { passed := true, message := "declared outputs" }),
         ("inference_test",
          { passed := true, message := "synthetic inference" })] ∧
    checkPassed
      [("model_loaded", { passed := true, message := "model loaded" }),
       ("model_inputs", { passed := false, message := "declared inputs" }),
       ("model_outputs", { passed := true, message := "declared outputs" }),
       ("inference_test",
        { passed := true, message := "synthetic inference" })]
      "model_inputs" = some false := by
  refine ⟨by decide, by decide, by decide⟩

/-- C8 amended: whenever load succeeds, the report holds exactly the
four fixed keys in order, model_inputs passes iff at least one input is
declared and every input name is non-empty, and model_outputs passes iff
at least one output is declared and every output name is non-empty. -/
theorem validate_model_report_keys (env : ValEnv)
    (report : List (String × CheckResult))
    (h : validate_model env = Except.ok report) :
    report.map Prod.fst =
      ["model_loaded", "model_inputs", "model_outputs", "inference_test"] ∧
    (checkPassed report "model_inputs" = some true ↔
      0 < env.inputs.length ∧ ∀ i ∈ env.inputs, i.name ≠ "") ∧
    (checkPassed report "model_outputs" = some true ↔
      0 < env.outputs.length ∧ ∀ o ∈ env.outputs, o.name ≠ "") := by
  unfold validate_model at h
  by_cases hp : env.pathExists = false
  · simp [hp] at h
  · simp only [hp, if_false] at h
    by_cases hl : env.loadOk = false
    · simp [hl] at h
    · simp only [hl, if_false] at h
      cases h
      refine ⟨rfl, ?_, ?_⟩
      · simp [checkPassed, List.find?, List.all_eq_true]
      · simp [checkPassed, List.find?, List.all_eq_true]

/-- Validation environment of a well-formed loaded model with one named
input and one named output. -/
def envGoodModel : ValEnv :=
  { pathExists := true, loadOk := true
    inputs := [{ name := "in", shape := [Dim.int 1, Dim.int 10] }]
    outputs := [{ name := "out", shape := [Dim.int 1, Dim.int 5] }]
    runOk := true, runOutputCount := 1 }

/-- Witness for the amended C8 on a well-formed model: the four keys
appear in order and both introspection checks pass. -/
theorem validate_model_report_keys_witness :
    validate_model envGoodModel =
      Except.ok
        [("model_loaded", { passed := true, message := "model loaded" }),
         ("model_inputs", { passed := true, message := "declared inputs" }),
         ("model_outputs", { passed := true, message := "declared outputs" }),
         ("inference_test",
          { passed := true, message := "synthetic inference" })] ∧
    ([("model_loaded",
       ({ passed := true, message := "model loaded" } : CheckResult)),
      ("model_inputs", { passed := true, message := "declared inputs" }),
      ("model_outputs", { passed := true, message := "declared outputs" }),
      ("inference_test",
       { passed := true, message := "synthetic inference" })].map Prod.fst =
      ["model_loaded", "model_inputs", "model_outputs", "inference_test"]) ∧
    (0 < envGoodModel.inputs.length ∧
      ∀ i ∈ envGoodModel.inputs, i.name ≠ "") := by
  have h : validate_model envGoodModel =
      Except.ok
        [("model_loaded", { passed := true, message := "model loaded" }),
         ("model_inputs", { passed := true, message := "declared inputs" }),
         ("model_outputs", { passed := true, message := "declared outputs" }),
         ("inference_test",
          { passed := true, message := "synthetic inference" })] := by decide
  have hk := validate_model_report_keys envGoodModel _ h
  exact ⟨h, hk.1, by decide⟩

/-- C9: a nonexistent path makes validate_model raise the not-found
error (never model-corrupt), an existing but unparseable artifact makes
it raise the model-corrupt error, and the two load-failure causes are
distinct error values. -/
theorem validate_model_load_errors (env1 env2 : ValEnv)
    (h1 : env1.pathExists = false)
    (h2 : env2.pathExists = true) (h3 : env2.loadOk = false) :
    validate_model env1 = Except.error ValError.fileNotFound ∧
    validate_model env2 = Except.error ValError.modelCorrupt ∧
    ValError.fileNotFound ≠ ValError.modelCorrupt := by
  refine ⟨?_, ?_, by decide⟩
  · simp [validate_model, h1]
  · simp [validate_model, h2, h3]

/-- Validation environment of a missing file. -/
def envMissingFile : ValEnv :=
  { pathExists := false, loadOk := false
    inputs := [], outputs := [], runOk := false, runOutputCount := 0 }

/-- Validation environment of an existing file of non-model bytes. -/
def envCorruptFile : ValEnv :=
  { pathExists := true, loadOk := false
    inputs := [], outputs := [], runOk := false, runOutputCount := 0 }

/-- Witness for C9 at the two concrete load-failure environments. -/
theorem validate_model_load_errors_witness :
    validate_model envMissingFile = Except.error ValError.fileNotFound ∧
    validate_model envCorruptFile = Except.error ValError.modelCorrupt := by
  have h := validate_model_load_errors envMissingFile envCorruptFile
    rfl rfl rfl
  exact ⟨h.1, h.2.1⟩
